import Mathlib

/-!
Verification of the Ghost Wheel AR demo (`main_wasd.js` and the gesture-input
variant) against its design specification.

The embedding models JavaScript numbers as real numbers (`ℝ`); timestamps
(values of `performance.now()` and the recognition interval) are modelled as
rationals (`ℚ`) so that the clock-gate comparisons stay decidable; a
JavaScript value that may be `undefined`/`NaN` (an out-of-range array read and
anything derived from it) is modelled as `Option ℝ` with `none` for the
non-numeric result.
-/

/- ### Vehicle motion model (`main_wasd.js`, `carSystem` / `updateCarPhysics`) -/

/-- The boolean input state `carSystem.keys` of `main_wasd.js`. -/
structure Keys where
  forward : Bool
  backward : Bool
  left : Bool
  right : Bool
  brake : Bool

/-- The kinematic fields of `carSystem`: `position.{x,z}`, `velocity.{x,z}`,
`rotation` (heading, radians) and the cached `speed` scalar. -/
@[ext] structure CarState where
  posX : ℝ
  posZ : ℝ
  velX : ℝ
  velZ : ℝ
  rotation : ℝ
  speed : ℝ

/-- The control parameters of `carSystem`. -/
structure CarParams where
  acceleration : ℝ
  maxSpeed : ℝ
  turnSpeed : ℝ
  friction : ℝ
  brakeForce : ℝ

/-- The configured parameter values of `main_wasd.js` (lines 1236-1240). -/
def defaultParams : CarParams :=
  { acceleration := 0.012
    maxSpeed := 0.40
    turnSpeed := 0.05
    friction := 0.95
    brakeForce := 0.85 }

/-- The initial `carSystem` kinematic state: origin, zero velocity, zero
rotation, zero speed. -/
def car0 : CarState :=
  { posX := 0, posZ := 0, velX := 0, velZ := 0, rotation := 0, speed := 0 }

/-- `updateCarPhysics` of `main_wasd.js` (lines 1948-1998), translated
statement by statement.  The state is threaded explicitly: `c1` is the state
after the brake block, `c2`/`c3` after the two steering blocks, `c4` after
adding the acceleration in the heading direction, `c5` after friction, `c6`
after the speed recomputation and proportional clamp.  Note that the two
steering blocks read the stale `speed` field (recomputed only later, at the
clamp), exactly as the source does. -/
noncomputable def updateCarPhysics (p : CarParams) (k : Keys) (c0 : CarState) : CarState :=
  let accel : ℝ :=
    if k.forward then p.acceleration
    else if k.backward then -p.acceleration
    else 0
  let c1 :=
    if k.brake then
      { c0 with velX := c0.velX * p.brakeForce, velZ := c0.velZ * p.brakeForce }
    else c0
  let c2 :=
    if k.left ∧ |c1.speed| > 0.01 then
      { c1 with rotation := c1.rotation + p.turnSpeed * Real.sign c1.speed }
    else c1
  let c3 :=
    if k.right ∧ |c2.speed| > 0.01 then
      { c2 with rotation := c2.rotation - p.turnSpeed * Real.sign c2.speed }
    else c2
  let c4 := { c3 with
    velX := c3.velX + accel * Real.sin c3.rotation
    velZ := c3.velZ + accel * Real.cos c3.rotation }
  let c5 := { c4 with velX := c4.velX * p.friction, velZ := c4.velZ * p.friction }
  let s := Real.sqrt (c5.velX ^ 2 + c5.velZ ^ 2)
  let c6 :=
    if s > p.maxSpeed then
      let ratio := p.maxSpeed / s
      { c5 with velX := c5.velX * ratio, velZ := c5.velZ * ratio, speed := p.maxSpeed }
    else
      { c5 with speed := s }
  { c6 with posX := c6.posX + c6.velX, posZ := c6.posZ + c6.velZ }

/- ### The seven-stage pipeline the specification describes (§4.2, steps 1-7).
These definitions follow the wording of the specification; the refinement
theorem for C1 compares their composition with `updateCarPhysics` above. -/

/-- Spec step 1: the scalar acceleration; forward wins when both throttle
keys are held. -/
def determineAccel (p : CarParams) (k : Keys) : ℝ :=
  if k.forward then p.acceleration
  else if k.backward then -p.acceleration
  else 0

/-- Spec step 2: if brake is held, both velocity components are multiplied by
the brake factor. -/
noncomputable def brakeStage (p : CarParams) (k : Keys) (c : CarState) : CarState :=
  if k.brake then
    { c with velX := c.velX * p.brakeForce, velZ := c.velZ * p.brakeForce }
  else c

/-- The steering dead-zone threshold (`0.01` in the source). -/
def turnDeadzone : ℝ := 0.01

/-- Spec step 3: when a steering key is held and `|speed|` exceeds the
dead-zone, the heading changes by `±turnSpeed * sign speed` (left `+`,
right `-`). -/
noncomputable def steerStage (p : CarParams) (k : Keys) (c : CarState) : CarState :=
  if |c.speed| > turnDeadzone then
    { c with rotation := c.rotation
        + (if k.left then p.turnSpeed * Real.sign c.speed else 0)
        - (if k.right then p.turnSpeed * Real.sign c.speed else 0) }
  else c

/-- Spec step 4: the velocity gains the acceleration decomposed along the
current heading. -/
noncomputable def thrustStage (p : CarParams) (k : Keys) (c : CarState) : CarState :=
  { c with
    velX := c.velX + determineAccel p k * Real.sin c.rotation
    velZ := c.velZ + determineAccel p k * Real.cos c.rotation }

/-- Spec step 5: isotropic friction, applied unconditionally. -/
noncomputable def frictionStage (p : CarParams) (c : CarState) : CarState :=
  { c with velX := c.velX * p.friction, velZ := c.velZ * p.friction }

/-- Spec step 6: recompute the speed and, when it exceeds `maxSpeed`, rescale
both velocity components proportionally so the magnitude is exactly
`maxSpeed`. -/
noncomputable def clampStage (p : CarParams) (c : CarState) : CarState :=
  let s := Real.sqrt (c.velX ^ 2 + c.velZ ^ 2)
  if s > p.maxSpeed then
    { c with
      velX := c.velX * (p.maxSpeed / s)
      velZ := c.velZ * (p.maxSpeed / s)
      speed := p.maxSpeed }
  else
    { c with speed := s }

/-- Spec step 7: `position += velocity`. -/
def moveStage (c : CarState) : CarState :=
  { c with posX := c.posX + c.velX, posZ := c.posZ + c.velZ }

/-- The velocity state after spec steps 1-5, before the clamp. -/
noncomputable def preClamp (p : CarParams) (k : Keys) (c : CarState) : CarState :=
  frictionStage p (thrustStage p k (steerStage p k (brakeStage p k c)))

/-- The exact per-tick speed sequence of the spec's 100-tick forward-only
scenario (§8): starting from rest, each tick adds the acceleration `3/250`
(`0.012`) and multiplies by the friction `19/20` (`0.95`), in the order the
integrator uses. -/
def vseq : ℕ → ℚ
  | 0 => 0
  | n + 1 => (vseq n + 3 / 250) * (19 / 20)

/- ### Plane anchor state machine (`main_wasd.js`, `arSystem`) -/

/-- The two phases of the spec's Plane Anchor State Machine (§4.1). -/
inductive Phase where
  | Searching : Phase
  | Anchored : Phase
deriving DecidableEq

/-- The fields of `arSystem` that the anchor state machine reads and writes.
`planeMatrix` is a `THREE.Matrix4` in column-major element order; an entry is
`none` when the stored value is not a number (`NaN`/`undefined`).  The cached
`planePosition`/`planeRotation` display values, derived from `planeMatrix` in
`updatePlaneReference`, are omitted. -/
structure ARState where
  markerDetected : Bool
  lastDetectionTime : ℚ
  planeMatrix : Fin 16 → Option ℝ
  initialized : Bool
  planeEstablished : Bool
  searchingForMarker : Bool

/-- The value of `new THREE.Matrix4()`: the identity, column-major. -/
def identityMat4 : Fin 16 → Option ℝ := fun i =>
  if i.val % 5 = 0 then some 1 else some 0

/-- The initial `arSystem` value (lines 1253-1262). -/
def arSystem0 : ARState :=
  { markerDetected := false
    lastDetectionTime := 0
    planeMatrix := identityMat4
    initialized := false
    planeEstablished := false
    searchingForMarker := true }

/-- `fixMatrix` (lines 1859-1866): `three_mat.set(m[0], m[8], -m[4], m[12],
m[1], m[9], -m[5], m[13], m[2], m[10], -m[6], m[14], m[3], m[11], -m[7],
m[15])`.  `THREE.Matrix4.set` takes row-major arguments and stores
column-major, so element `4*col + row` of the result reads column `col` of
the argument pattern.  A read past the end of the pose array gives
`undefined` in JavaScript (and its negation `NaN`), modelled as `none`. -/
def fixMatrix (m : List ℝ) : Fin 16 → Option ℝ := fun i =>
  let col := i.val / 4
  let row := i.val % 4
  if col = 0 then m.get? row
  else if col = 1 then m.get? (8 + row)
  else if col = 2 then (m.get? (4 + row)).map (fun x => -x)
  else m.get? (12 + row)

/-- `handleMarkerDetection` (lines 1780-1805) restricted to its effect on
`arSystem`: when the marker id is not the `-1` sentinel and the system is
searching, `updatePlaneReference` stores `fixMatrix` of the pose into
`planeMatrix`, sets `initialized`, and the detection flags flip the machine
into the anchored configuration; otherwise nothing changes.  (The remaining
statements of the handler only write the UI/console.) -/
def handleMarkerDetection (s : ARState) (idMatrix : ℤ) (pose : List ℝ) (now : ℚ) :
    ARState :=
  if idMatrix ≠ -1 ∧ s.searchingForMarker then
    { s with
      planeMatrix := fixMatrix pose
      initialized := true
      markerDetected := true
      lastDetectionTime := now
      planeEstablished := true
      searchingForMarker := false }
  else s

/-- The spec's phase abstraction: the machine is `Searching` exactly when the
`searchingForMarker` flag is set (§4.1; `arSystem.searchingForMarker`). -/
def phase (s : ARState) : Phase :=
  if s.searchingForMarker then Phase.Searching else Phase.Anchored

/-- The combined mutable state that `resetCarPosition` touches. -/
structure SysState where
  car : CarState
  ar : ARState

/-- `resetCarPosition` (lines 1911-1936): zeroes the car kinematics and
clears the four AR flags; `planeMatrix` (and `lastDetectionTime`) are not
written.  (The remaining statements of the function only write the
UI/console.) -/
def resetCarPosition (s : SysState) : SysState :=
  { car := { posX := 0, posZ := 0, velX := 0, velZ := 0, rotation := 0, speed := 0 }
    ar := { s.ar with
      planeEstablished := false
      searchingForMarker := true
      markerDetected := false
      initialized := false } }

/-- The AR-processing cadence `processingInterval = 1000 / 30` (line 1270). -/
def processingInterval : ℚ := 1000 / 30

/-- The `shouldProcessAR` condition of `renderLoop` (lines 2049-2053):
`arController.process` is invoked in a frame exactly when this is true. -/
def shouldProcessAR (arLoaded hasController : Bool) (s : ARState)
    (currentTime lastProcessTime : ℚ) : Bool :=
  arLoaded && hasController && s.searchingForMarker && !s.planeEstablished &&
    decide (currentTime - lastProcessTime ≥ processingInterval)

/-- The spec's `shouldRunRecognition` query (§4.1).  The source has no named
function: the render loop inlines the flag test
`arSystem.searchingForMarker && !arSystem.planeEstablished`, which this
definition names. -/
def shouldRunRecognition (s : ARState) : Bool :=
  s.searchingForMarker && !s.planeEstablished

/- ### Gesture-input variant (`GhostWheelAR` class) -/

namespace GhostWheelAR

/-- The fields of the `GhostWheelAR` class instance that the hand-tracking
and render-loop code reads and writes.  `carPresent` is the truthiness of
`this.car`; `containerVisible` is `this.container.visible`;
`containerMatrix` is `this.container.matrix`. -/
structure GWState where
  carPositionX : ℝ
  carPositionZ : ℝ
  carRotation : ℝ
  lastMarkerTime : ℚ
  markerVisible : Bool
  currentSteeringAngle : ℝ
  handConfidence : ℝ
  smoothedSteering : ℝ
  carPresent : Bool
  containerVisible : Bool
  containerMatrix : Fin 16 → Option ℝ

/-- `this.carSpeed = 0.002` (units per frame). -/
def carSpeed : ℝ := 0.002

/-- `this.steeringSmoothing = 0.1`. -/
def steeringSmoothing : ℝ := 0.1

/-- An inbound `steering_data` websocket message; either field may be absent
(`data.steering_angle || 0` then yields `0`). -/
structure HandMsg where
  steering_angle : Option ℝ
  confidence : Option ℝ

/-- `updateCarMovement` (part_001, lines 333-353): converts the smoothed
steering angle to radians (`THREE.MathUtils.degToRad`), turns the car by
`steeringRad * 0.02`, and advances the position by `carSpeed` along the new
heading. -/
noncomputable def updateCarMovement (s : GWState) : GWState :=
  let steeringRad := s.smoothedSteering * (Real.pi / 180)
  let rot := s.carRotation + steeringRad * 0.02
  let moveX := Real.sin rot * carSpeed
  let moveZ := Real.cos rot * carSpeed
  { s with
    carRotation := rot
    carPositionX := s.carPositionX + moveX
    carPositionZ := s.carPositionZ + moveZ }

/-- `handleHandTrackingData` (part_001, lines 311-331): stores the message's
angle and confidence (defaulting absent fields to `0`), applies the
exponential smoothing `lerp(smoothed, target, 0.1)`, and calls
`updateCarMovement` only when `confidence > 0.7` and a car model exists and
the marker is currently visible.  (The two display-update calls touch only
the DOM.) -/
noncomputable def handleHandTrackingData (s : GWState) (data : HandMsg) : GWState :=
  let angle := data.steering_angle.getD 0
  let conf := data.confidence.getD 0
  let s1 := { s with
    currentSteeringAngle := angle
    handConfidence := conf
    smoothedSteering :=
      s.smoothedSteering + (angle - s.smoothedSteering) * steeringSmoothing }
  if conf > 0.7 ∧ s1.carPresent ∧ s1.markerVisible then updateCarMovement s1 else s1

/-- `handleMarkerDetection` of the gesture variant (part_001, lines 243-250):
a detection with a non-sentinel id stores the converted pose in the
container's matrix (`updateMarkerMatrix`), makes the container visible and
records the detection time. -/
def handleMarkerDetection (s : GWState) (idMatrix : ℤ) (pose : List ℝ) (now : ℚ) :
    GWState :=
  if idMatrix ≠ -1 then
    { s with
      containerMatrix := fixMatrix pose
      containerVisible := true
      lastMarkerTime := now
      markerVisible := true }
  else s

/-- The marker-visibility timeout check of `startRenderLoop` (part_001,
lines 417-421): when more than 200 ms have passed since the last detection,
the container is hidden and the visibility flag cleared. -/
def markerTimeoutCheck (s : GWState) (now : ℚ) : GWState :=
  if now - s.lastMarkerTime > 200 then
    { s with containerVisible := false, markerVisible := false }
  else s

/-- One pass of the render-loop body (part_001, lines 406-425) restricted to
the modelled state: `arController.process` synchronously delivers this
frame's marker events to `handleMarkerDetection`, then the visibility
timeout check runs.  (`updateVideoBackground` and `renderer.render` do not
touch the modelled state.) -/
def renderStep (s : GWState) (events : List (ℤ × List ℝ)) (now : ℚ) : GWState :=
  markerTimeoutCheck
    (events.foldl (fun st e => handleMarkerDetection st e.1 e.2 now) s) now

end GhostWheelAR

/- ### Concrete states used by the witnesses and counterexamples -/

/-- A state in the `Anchored` phase with the identity stored as anchor. -/
def arAnch0 : ARState :=
  { markerDetected := true
    lastDetectionTime := 5
    planeMatrix := identityMat4
    initialized := true
    planeEstablished := true
    searchingForMarker := false }

/-- An anchored whole-system state whose stored plane matrix is not the
identity (all entries `5`). -/
def sysEx : SysState :=
  { car := { posX := 3, posZ := 4, velX := 1, velZ := 0, rotation := 2, speed := 1 }
    ar := { markerDetected := true
            lastDetectionTime := 5
            planeMatrix := fun _ => some 5
            initialized := true
            planeEstablished := true
            searchingForMarker := false } }

/-- A gesture-variant state used by the C9 and C10 witnesses: car present,
marker currently visible, last detection at time `0`. -/
def gw0 : GhostWheelAR.GWState :=
  { carPositionX := 1
    carPositionZ := 2
    carRotation := 0.5
    lastMarkerTime := 0
    markerVisible := true
    currentSteeringAngle := 0
    handConfidence := 0
    smoothedSteering := 10
    carPresent := true
    containerVisible := true
    containerMatrix := identityMat4 }

/-- A low-confidence steering message. -/
def msgLow : GhostWheelAR.HandMsg :=
  { steering_angle := some 20, confidence := some 0.5 }

/- ### Claims -/

/-- One integration step equals the specification's seven-stage pipeline
composed in order. -/
theorem updateCarPhysics_pipeline (p : CarParams) (k : Keys) (c : CarState) :
    updateCarPhysics p k c = moveStage (clampStage p (preClamp p k c)) := by
  obtain ⟨kf, kb, kl, kr, kbr⟩ := k
  cases kbr <;> cases kl <;> cases kr <;>
    by_cases hd : |c.speed| > (0.01 : ℝ) <;>
      simp [updateCarPhysics, preClamp, brakeStage, steerStage, thrustStage,
        frictionStage, clampStage, moveStage, determineAccel, turnDeadzone, hd,
        CarState.ext_iff]

/-- C1: one call of `updateCarPhysics` performs exactly the seven spec
updates in order: (1) the accel scalar with forward priority, (2) brake
scaling, (3) the dead-zone-guarded heading change by
`±turnSpeed * sign speed`, (4) the velocity gain
`(accel·sin heading, accel·cos heading)`, (5) unconditional friction,
(6) the proportional speed clamp, (7) `position += velocity`. -/
theorem C1_seven_stage_pipeline (p : CarParams) (k : Keys) (c : CarState) :
    updateCarPhysics p k c =
      moveStage (clampStage p (frictionStage p (thrustStage p k
        (steerStage p k (brakeStage p k c))))) :=
  updateCarPhysics_pipeline p k c

/-- C8: with the stored speed within the turn dead-zone, an integration step
leaves the heading unchanged, whatever keys are held. -/
theorem C8_no_turn_in_deadzone (p : CarParams) (k : Keys) (c : CarState)
    (h : |c.speed| ≤ 0.01) :
    (updateCarPhysics p k c).rotation = c.rotation := by
  have h1 : ¬ (|c.speed| > (0.01 : ℝ)) := not_lt.2 h
  obtain ⟨kf, kb, kl, kr, kbr⟩ := k
  cases kbr <;> cases kl <;> cases kr <;>
    simp [updateCarPhysics, h1, apply_ite CarState.rotation]

/-- Witness for C8: a stationary car with steer-left held does not turn. -/
theorem C8_witness :
    |car0.speed| ≤ 0.01 ∧
    (updateCarPhysics defaultParams ⟨false, false, true, false, false⟩ car0).rotation
      = car0.rotation := by
  have h : |car0.speed| ≤ (0.01 : ℝ) := by norm_num [car0]
  exact ⟨h, C8_no_turn_in_deadzone defaultParams _ car0 h⟩

/-- C3: anchoring is one-shot.  While `Anchored`, any detection event leaves
the stored `planeMatrix` and the phase unchanged; and two consecutive valid
detections with distinct poses from `Searching` leave the anchor equal to
the conversion of the first pose (the second detection changes nothing). -/
theorem C3_anchoring_one_shot (s sa : ARState) (idA idB idC : ℤ)
    (pA pB pC : List ℝ) (tA tB tC : ℚ) :
    (phase sa = Phase.Anchored →
      (handleMarkerDetection sa idC pC tC).planeMatrix = sa.planeMatrix ∧
      phase (handleMarkerDetection sa idC pC tC) = phase sa) ∧
    (s.searchingForMarker = true → idA ≠ -1 → idB ≠ -1 → pA ≠ pB →
      (handleMarkerDetection (handleMarkerDetection s idA pA tA) idB pB tB).planeMatrix
        = fixMatrix pA ∧
      handleMarkerDetection (handleMarkerDetection s idA pA tA) idB pB tB
        = handleMarkerDetection s idA pA tA) := by
  constructor
  · intro hA
    have hs : sa.searchingForMarker = false := by
      by_cases h : sa.searchingForMarker
      · simp [phase, h] at hA
      · simpa using h
    simp [handleMarkerDetection, hs]
  · intro hs h1 h2 _
    simp [handleMarkerDetection, hs, h1, h2]

/-- Witness for C3: a detection while anchored is ignored, and after two
valid detections with distinct poses the anchor is the conversion of the
first. -/
theorem C3_witness :
    (handleMarkerDetection arAnch0 7 [9] 0).planeMatrix = arAnch0.planeMatrix ∧
    (handleMarkerDetection (handleMarkerDetection arSystem0 7 [1] 0) 8 [2] 1).planeMatrix
      = fixMatrix [1] :=
  ⟨((C3_anchoring_one_shot arSystem0 arAnch0 7 8 7 [1] [2] [9] 0 1 0).1 rfl).1,
   ((C3_anchoring_one_shot arSystem0 arAnch0 7 8 7 [1] [2] [9] 0 1 0).2 rfl
      (by decide) (by decide) (by norm_num)).1⟩

/-- Counterexample for C4: `resetCarPosition` from an anchored state does
reach `Searching`, but it does not clear the stored anchor transform — the
plane matrix keeps its previous (non-identity) value, whereas a cleared
`THREE.Matrix4` holds the identity. -/
theorem C4_counterexample :
    phase (resetCarPosition sysEx).ar = Phase.Searching ∧
    (resetCarPosition sysEx).ar.planeMatrix = sysEx.ar.planeMatrix ∧
    (resetCarPosition sysEx).ar.planeMatrix 0 = some 5 ∧
    identityMat4 0 = some 1 ∧
    (resetCarPosition sysEx).ar.planeMatrix ≠ identityMat4 := by
  refine ⟨rfl, rfl, rfl, rfl, fun h => ?_⟩
  have h0 := congrFun h 0
  simp [sysEx, resetCarPosition, identityMat4] at h0

/-- C4 amended: `resetCarPosition`, from any phase and any vehicle state,
puts the machine in `Searching` with all four AR flags cleared and the car
at the origin with zero velocity, heading and speed; the `planeMatrix`
buffer is left holding its previous value (it is not cleared). -/
theorem C4_amended_reset (s : SysState) :
    phase (resetCarPosition s).ar = Phase.Searching ∧
    (resetCarPosition s).ar.searchingForMarker = true ∧
    (resetCarPosition s).ar.planeEstablished = false ∧
    (resetCarPosition s).ar.markerDetected = false ∧
    (resetCarPosition s).ar.initialized = false ∧
    (resetCarPosition s).car = car0 ∧
    (resetCarPosition s).ar.planeMatrix = s.ar.planeMatrix :=
  ⟨rfl, rfl, rfl, rfl, rfl, rfl, rfl⟩

/-- Counterexample for C5: a zero-length pose array with a valid marker id,
received while `Searching`, is not rejected — the machine transitions to
`Anchored` and the stored matrix entry is the non-numeric result of the
out-of-range reads. -/
theorem C5_counterexample :
    arSystem0.searchingForMarker = true ∧
    phase (handleMarkerDetection arSystem0 7 [] 0) = Phase.Anchored ∧
    (handleMarkerDetection arSystem0 7 [] 0).planeMatrix 0 = none := by
  refine ⟨rfl, ?_, ?_⟩ <;>
    simp [handleMarkerDetection, arSystem0, phase, fixMatrix]

/-- C5 amended: a detection with the sentinel id `-1` is a no-op in any
phase; but pose payloads are never validated — any pose array (including a
zero-length one) with a valid id while `Searching` is stored via `fixMatrix`
and the machine becomes `Anchored`.  The handler is a total function, so no
exception propagates. -/
theorem C5_amended_sentinel_and_no_validation (s : ARState) (idMatrix : ℤ)
    (pose : List ℝ) (t u : ℚ) :
    handleMarkerDetection s (-1) pose t = s ∧
    (s.searchingForMarker = true → idMatrix ≠ -1 →
      (handleMarkerDetection s idMatrix pose u).planeMatrix = fixMatrix pose ∧
      phase (handleMarkerDetection s idMatrix pose u) = Phase.Anchored) := by
  constructor
  · simp [handleMarkerDetection]
  · intro hs hid
    simp [handleMarkerDetection, hs, hid, phase]

/-- Witness for C5 (amended): the zero-length pose is accepted from
`Searching`, and a sentinel detection while anchored changes nothing. -/
theorem C5_witness :
    ((handleMarkerDetection arSystem0 7 [] 0).planeMatrix = fixMatrix [] ∧
      phase (handleMarkerDetection arSystem0 7 [] 0) = Phase.Anchored) ∧
    handleMarkerDetection arAnch0 (-1) [3] 2 = arAnch0 :=
  ⟨(C5_amended_sentinel_and_no_validation arSystem0 7 [] 0 0).2 rfl (by decide),
   (C5_amended_sentinel_and_no_validation arAnch0 7 [3] 2 2).1⟩

/-- The magnitude of the post-clamp velocity, and its exact form when the
clamp fires. -/
lemma clampStage_spec (p : CarParams) (hp : 0 < p.maxSpeed) (d : CarState) :
    Real.sqrt ((clampStage p d).velX ^ 2 + (clampStage p d).velZ ^ 2) ≤ p.maxSpeed ∧
    (Real.sqrt (d.velX ^ 2 + d.velZ ^ 2) > p.maxSpeed →
      Real.sqrt ((clampStage p d).velX ^ 2 + (clampStage p d).velZ ^ 2) = p.maxSpeed ∧
      (clampStage p d).velX
        = d.velX * (p.maxSpeed / Real.sqrt (d.velX ^ 2 + d.velZ ^ 2)) ∧
      (clampStage p d).velZ
        = d.velZ * (p.maxSpeed / Real.sqrt (d.velX ^ 2 + d.velZ ^ 2)) ∧
      0 < p.maxSpeed / Real.sqrt (d.velX ^ 2 + d.velZ ^ 2)) := by
  set s := Real.sqrt (d.velX ^ 2 + d.velZ ^ 2) with hsdef
  by_cases hgt : s > p.maxSpeed
  · have hs0 : 0 < s := lt_trans hp hgt
    have hr : 0 < p.maxSpeed / s := div_pos hp hs0
    have hx : (clampStage p d).velX = d.velX * (p.maxSpeed / s) := by
      simp only [clampStage, ← hsdef, if_pos hgt]
    have hz : (clampStage p d).velZ = d.velZ * (p.maxSpeed / s) := by
      simp only [clampStage, ← hsdef, if_pos hgt]
    have hmag : Real.sqrt ((clampStage p d).velX ^ 2 + (clampStage p d).velZ ^ 2)
        = p.maxSpeed := by
      rw [hx, hz]
      have key : (d.velX * (p.maxSpeed / s)) ^ 2 + (d.velZ * (p.maxSpeed / s)) ^ 2
          = (p.maxSpeed / s) ^ 2 * (d.velX ^ 2 + d.velZ ^ 2) := by ring
      rw [key, Real.sqrt_mul (sq_nonneg _), Real.sqrt_sq_eq_abs,
        abs_of_nonneg (le_of_lt hr), ← hsdef, div_mul_cancel₀ _ (ne_of_gt hs0)]
    exact ⟨le_of_eq hmag, fun _ => ⟨hmag, hx, hz, hr⟩⟩
  · have hx : (clampStage p d).velX = d.velX := by
      simp only [clampStage, ← hsdef, if_neg hgt]
    have hz : (clampStage p d).velZ = d.velZ := by
      simp only [clampStage, ← hsdef, if_neg hgt]
    refine ⟨?_, fun h => absurd h hgt⟩
    rw [hx, hz, ← hsdef]
    exact not_lt.1 hgt

/-- C2: after one integration step the velocity magnitude is at most
`maxSpeed`; when the pre-clamp magnitude exceeds `maxSpeed`, both components
are rescaled by the same positive ratio and the resulting magnitude is
exactly `maxSpeed` (direction preserved). -/
theorem C2_speed_clamp_invariant (k : Keys) (c : CarState)
    (h : Real.sqrt (c.velX ^ 2 + c.velZ ^ 2) ≤ defaultParams.maxSpeed) :
    Real.sqrt ((updateCarPhysics defaultParams k c).velX ^ 2 +
        (updateCarPhysics defaultParams k c).velZ ^ 2) ≤ defaultParams.maxSpeed ∧
    (Real.sqrt ((preClamp defaultParams k c).velX ^ 2 +
        (preClamp defaultParams k c).velZ ^ 2) > defaultParams.maxSpeed →
      Real.sqrt ((updateCarPhysics defaultParams k c).velX ^ 2 +
          (updateCarPhysics defaultParams k c).velZ ^ 2) = defaultParams.maxSpeed ∧
      (updateCarPhysics defaultParams k c).velX
        = (preClamp defaultParams k c).velX * (defaultParams.maxSpeed /
            Real.sqrt ((preClamp defaultParams k c).velX ^ 2 +
              (preClamp defaultParams k c).velZ ^ 2)) ∧
      (updateCarPhysics defaultParams k c).velZ
        = (preClamp defaultParams k c).velZ * (defaultParams.maxSpeed /
            Real.sqrt ((preClamp defaultParams k c).velX ^ 2 +
              (preClamp defaultParams k c).velZ ^ 2)) ∧
      0 < defaultParams.maxSpeed /
            Real.sqrt ((preClamp defaultParams k c).velX ^ 2 +
              (preClamp defaultParams k c).velZ ^ 2)) := by
  have hp : (0 : ℝ) < defaultParams.maxSpeed := by norm_num [defaultParams]
  have hup : updateCarPhysics defaultParams k c
      = moveStage (clampStage defaultParams (preClamp defaultParams k c)) :=
    updateCarPhysics_pipeline defaultParams k c
  have hmx : ∀ d : CarState, (moveStage d).velX = d.velX := fun _ => rfl
  have hmz : ∀ d : CarState, (moveStage d).velZ = d.velZ := fun _ => rfl
  rw [hup, hmx, hmz]
  exact clampStage_spec defaultParams hp (preClamp defaultParams k c)

/-- Witness for C2: from the initial resting state, one step with no keys
held leaves the speed within the bound. -/
theorem C2_witness :
    Real.sqrt (car0.velX ^ 2 + car0.velZ ^ 2) ≤ defaultParams.maxSpeed ∧
    Real.sqrt ((updateCarPhysics defaultParams ⟨false, false, false, false, false⟩ car0).velX ^ 2 +
        (updateCarPhysics defaultParams ⟨false, false, false, false, false⟩ car0).velZ ^ 2)
      ≤ defaultParams.maxSpeed := by
  have h : Real.sqrt (car0.velX ^ 2 + car0.velZ ^ 2) ≤ defaultParams.maxSpeed := by
    norm_num [car0, Real.sqrt_zero, defaultParams]
  exact ⟨h, (C2_speed_clamp_invariant ⟨false, false, false, false, false⟩ car0 h).1⟩

/-- C9: processing a steering message first applies the exponential
smoothing `smoothed += (target - smoothed) * 0.1`, and whenever the
message's confidence is at or below the `0.7` threshold the car's position
and heading are left exactly as they were (motion frozen). -/
theorem C9_confidence_deadman (s : GhostWheelAR.GWState) (data : GhostWheelAR.HandMsg) :
    (GhostWheelAR.handleHandTrackingData s data).smoothedSteering
      = s.smoothedSteering + (data.steering_angle.getD 0 - s.smoothedSteering)
          * GhostWheelAR.steeringSmoothing ∧
    (data.confidence.getD 0 ≤ 0.7 →
      (GhostWheelAR.handleHandTrackingData s data).carPositionX = s.carPositionX ∧
      (GhostWheelAR.handleHandTrackingData s data).carPositionZ = s.carPositionZ ∧
      (GhostWheelAR.handleHandTrackingData s data).carRotation = s.carRotation) := by
  constructor
  · simp only [GhostWheelAR.handleHandTrackingData]
    split
    · simp [GhostWheelAR.updateCarMovement]
    · rfl
  · intro h
    simp only [GhostWheelAR.handleHandTrackingData]
    split
    · next hcond => exact absurd hcond.1 (not_lt.2 h)
    · exact ⟨rfl, rfl, rfl⟩

/-- Witness for C9: a confidence-0.5 message smooths the steering but moves
nothing. -/
theorem C9_witness :
    msgLow.confidence.getD 0 ≤ 0.7 ∧
    (GhostWheelAR.handleHandTrackingData gw0 msgLow).carRotation = gw0.carRotation ∧
    (GhostWheelAR.handleHandTrackingData gw0 msgLow).smoothedSteering
      = gw0.smoothedSteering + (msgLow.steering_angle.getD 0 - gw0.smoothedSteering)
          * GhostWheelAR.steeringSmoothing := by
  have hc : msgLow.confidence.getD 0 ≤ (0.7 : ℝ) := by norm_num [msgLow]
  exact ⟨hc, ((C9_confidence_deadman gw0 msgLow).2 hc).2.2,
    (C9_confidence_deadman gw0 msgLow).1⟩

/-- C10: no ghost anchor in the gesture variant.  Any render-loop pass that
runs more than 200 ms after the last valid detection (including any
delivered in the same pass) hides the AR content group and clears the
marker-visible flag; consequently the content is visible after a pass only
if a valid detection happened within the last 200 ms. -/
theorem C10_no_ghost_anchor (s : GhostWheelAR.GWState)
    (events : List (ℤ × List ℝ)) (now : ℚ) :
    (now - (events.foldl
        (fun st e => GhostWheelAR.handleMarkerDetection st e.1 e.2 now) s).lastMarkerTime
        > 200 →
      (GhostWheelAR.renderStep s events now).containerVisible = false ∧
      (GhostWheelAR.renderStep s events now).markerVisible = false) ∧
    ((GhostWheelAR.renderStep s events now).containerVisible = true →
      now - (GhostWheelAR.renderStep s events now).lastMarkerTime ≤ 200) := by
  set d := events.foldl
    (fun st e => GhostWheelAR.handleMarkerDetection st e.1 e.2 now) s with hd
  constructor
  · intro h
    simp [GhostWheelAR.renderStep, GhostWheelAR.markerTimeoutCheck, ← hd, h]
  · intro hv
    by_cases h : now - d.lastMarkerTime > 200
    · exfalso
      simp [GhostWheelAR.renderStep, GhostWheelAR.markerTimeoutCheck, ← hd, h] at hv
    · have ht : (GhostWheelAR.renderStep s events now).lastMarkerTime
          = d.lastMarkerTime := by
        simp [GhostWheelAR.renderStep, GhostWheelAR.markerTimeoutCheck, ← hd, h]
      rw [ht]
      exact not_lt.1 h

/-- Witness for C10: a pass 300 ms after the last detection hides the
content; a pass containing a fresh detection shows it and the detection is
within the window. -/
theorem C10_witness :
    ((300 : ℚ) - (List.foldl
        (fun st e => GhostWheelAR.handleMarkerDetection st e.1 e.2 300) gw0
        ([] : List (ℤ × List ℝ))).lastMarkerTime > 200) ∧
    (GhostWheelAR.renderStep gw0 [] 300).containerVisible = false ∧
    (GhostWheelAR.renderStep gw0 [] 300).markerVisible = false := by
  have h : (300 : ℚ) - (List.foldl
      (fun st e => GhostWheelAR.handleMarkerDetection st e.1 e.2 300) gw0
      ([] : List (ℤ × List ℝ))).lastMarkerTime > 200 := by
    norm_num [gw0]
  exact ⟨h, ((C10_no_ghost_anchor gw0 [] 300).1 h).1,
    ((C10_no_ghost_anchor gw0 [] 300).1 h).2⟩

/-- C6: recognition only runs while searching.  In a render-loop frame the
`process` call is never made while the plane is established; when it is
made, the machine is `Searching` and the interval gate
`currentTime - lastProcessTime ≥ processingInterval` has passed; and under
the flag-consistency invariant the inlined `shouldRunRecognition` test is
true exactly in the `Searching` phase. -/
theorem C6_recognition_gating (arLoaded hasController : Bool) (s : ARState)
    (tNow tLast : ℚ) :
    (phase s = Phase.Anchored →
      shouldProcessAR arLoaded hasController s tNow tLast = false) ∧
    (shouldProcessAR arLoaded hasController s tNow tLast = true →
      phase s = Phase.Searching ∧ tNow - tLast ≥ processingInterval) ∧
    (s.planeEstablished = !s.searchingForMarker →
      (shouldRunRecognition s = true ↔ phase s = Phase.Searching)) := by
  cases hs : s.searchingForMarker <;> cases hp : s.planeEstablished <;>
    simp [shouldProcessAR, shouldRunRecognition, phase, hs, hp]

/-- Witness for C6: no processing while anchored; processing implies the
gate passed while searching; the inlined query agrees with the phase. -/
theorem C6_witness :
    shouldProcessAR true true arAnch0 100 0 = false ∧
    (phase arSystem0 = Phase.Searching ∧ (100 : ℚ) - 0 ≥ processingInterval) ∧
    (shouldRunRecognition arSystem0 = true ↔ phase arSystem0 = Phase.Searching) :=
  ⟨(C6_recognition_gating true true arAnch0 100 0).1 rfl,
   (C6_recognition_gating true true arSystem0 100 0).2.1
     (by norm_num [shouldProcessAR, arSystem0, processingInterval]),
   (C6_recognition_gating true true arSystem0 100 0).2.2 rfl⟩

/-- Every term of the scenario speed sequence is nonnegative. -/
lemma vseq_nonneg : ∀ n, 0 ≤ vseq n := by
  intro n
  induction n with
  | zero => norm_num [vseq]
  | succ n ih => rw [vseq]; nlinarith [ih]

/-- The scenario speed sequence never exceeds its fixed point
`acceleration * friction / (1 - friction) = 57/250 = 0.228`. -/
lemma vseq_le : ∀ n, vseq n ≤ 57 / 250 := by
  intro n
  induction n with
  | zero => norm_num [vseq]
  | succ n ih => rw [vseq]; nlinarith [ih]

/-- The gap to the fixed point contracts by the friction factor each tick. -/
lemma vseq_gap : ∀ n : ℕ, (57 / 250 : ℚ) - vseq n = (57 / 250) * (19 / 20) ^ n := by
  intro n
  induction n with
  | zero => norm_num [vseq]
  | succ n ih =>
    rw [vseq, pow_succ]
    linear_combination (19 / 20 : ℚ) * ih

/-- After 100 ticks the contraction factor is below one percent. -/
lemma pow100_le : ((19 : ℚ) / 20) ^ 100 ≤ 1 / 100 := by
  have h10 : ((19 : ℚ) / 20) ^ 10 ≤ 3 / 5 := by norm_num
  calc ((19 : ℚ) / 20) ^ 100 = (((19 : ℚ) / 20) ^ 10) ^ 10 := by rw [← pow_mul]
    _ ≤ (3 / 5) ^ 10 := pow_le_pow_left₀ (by positivity) h10 10
    _ ≤ 1 / 100 := by norm_num

/-- A forward-only integration step from a straight-line state
(`velX = 0`, `rotation = 0`, `0 ≤ velZ ≤ 0.228`): the scalar speed follows
`v ↦ (v + 0.012) * 0.95` and the clamp branch is not taken. -/
lemma step_forward (c : CarState) (hx : c.velX = 0) (hr : c.rotation = 0)
    (h0 : 0 ≤ c.velZ) (h1 : c.velZ ≤ 57 / 250) :
    updateCarPhysics defaultParams ⟨true, false, false, false, false⟩ c =
      { posX := c.posX
        posZ := c.posZ + (c.velZ + 0.012) * 0.95
        velX := 0
        velZ := (c.velZ + 0.012) * 0.95
        rotation := 0
        speed := (c.velZ + 0.012) * 0.95 } := by
  have hw0 : (0 : ℝ) ≤ (c.velZ + 3 / 250) * (19 / 20) := by nlinarith
  have hs1 : Real.sqrt (((c.velZ + 3 / 250) * (19 / 20)) ^ 2)
      = (c.velZ + 3 / 250) * (19 / 20) := Real.sqrt_sq hw0
  have hlt : ¬ ((2 : ℝ) / 5 < (c.velZ + 3 / 250) * (19 / 20)) := by
    push_neg
    nlinarith
  simp only [updateCarPhysics, defaultParams]
  norm_num [hx, hr, Real.sin_zero, Real.cos_zero]
  rw [hs1, if_neg hlt]
  norm_num

/-- The forward-only run from rest stays on the z-axis with zero heading,
and its velocity and cached speed both equal the rational sequence `vseq`. -/
lemma c7_run : ∀ n : ℕ,
    ((updateCarPhysics defaultParams ⟨true, false, false, false, false⟩)^[n] car0).velX = 0 ∧
    ((updateCarPhysics defaultParams ⟨true, false, false, false, false⟩)^[n] car0).rotation = 0 ∧
    ((updateCarPhysics defaultParams ⟨true, false, false, false, false⟩)^[n] car0).velZ
      = ((vseq n : ℚ) : ℝ) ∧
    ((updateCarPhysics defaultParams ⟨true, false, false, false, false⟩)^[n] car0).speed
      = ((vseq n : ℚ) : ℝ) := by
  intro n
  induction n with
  | zero => norm_num [car0, vseq]
  | succ n ih =>
    obtain ⟨ihx, ihr, ihz, ihs⟩ := ih
    rw [Function.iterate_succ_apply']
    set c := (updateCarPhysics defaultParams ⟨true, false, false, false, false⟩)^[n] car0
      with hc
    have h0 : (0 : ℝ) ≤ c.velZ := by
      rw [ihz]
      exact_mod_cast vseq_nonneg n
    have h1 : c.velZ ≤ 57 / 250 := by
      rw [ihz, show (57 / 250 : ℝ) = ((57 / 250 : ℚ) : ℝ) by norm_num]
      exact_mod_cast vseq_le n
    rw [step_forward c ihx ihr h0 h1]
    refine ⟨rfl, rfl, ?_, ?_⟩ <;>
      · show (c.velZ + 0.012) * 0.95 = ((vseq (n + 1) : ℚ) : ℝ)
        rw [ihz, vseq]
        push_cast
        norm_num

/-- Counterexample for C7: with `{forward}` held for 100 ticks from rest,
the speed equals `vseq 100` — bounded by the true fixed point
`acceleration·friction/(1-friction) = 0.228` — and is therefore not within
1% of the claimed value `0.24`. -/
theorem C7_counterexample :
    ((updateCarPhysics defaultParams ⟨true, false, false, false, false⟩)^[100] car0).speed
      = ((vseq 100 : ℚ) : ℝ) ∧
    ¬ |((updateCarPhysics defaultParams ⟨true, false, false, false, false⟩)^[100] car0).speed
        - 0.24| ≤ 0.01 * 0.24 := by
  obtain ⟨-, -, -, hs⟩ := c7_run 100
  refine ⟨hs, fun habs => ?_⟩
  rw [hs, abs_le] at habs
  have hub : ((vseq 100 : ℚ) : ℝ) ≤ 57 / 250 := by
    rw [show (57 / 250 : ℝ) = ((57 / 250 : ℚ) : ℝ) by norm_num]
    exact_mod_cast vseq_le 100
  have := habs.1
  norm_num at this hub
  linarith

/-- C7 amended: in the 100-tick forward-only scenario the speed follows the
exact rational recurrence `vseq` (so after 100 ticks it is
`0.228·(1 - 0.95^100) ≈ 0.2267`), never exceeds `0.228`, which is strictly
below `maxSpeed` so the clamp never activates, and ends within 1% of the
true fixed point `acceleration·friction/(1-friction) = 0.228` (not of the
spec's `0.24 = acceleration/(1-friction)`). -/
theorem C7_amended_convergence :
    (∀ n : ℕ,
      ((updateCarPhysics defaultParams ⟨true, false, false, false, false⟩)^[n] car0).speed
        = ((vseq n : ℚ) : ℝ) ∧
      ((updateCarPhysics defaultParams ⟨true, false, false, false, false⟩)^[n] car0).speed
        ≤ 0.228) ∧
    (0.228 : ℝ) < defaultParams.maxSpeed ∧
    |((updateCarPhysics defaultParams ⟨true, false, false, false, false⟩)^[100] car0).speed
        - 0.228| ≤ 0.01 * 0.228 := by
  have hmain : ∀ n : ℕ,
      ((updateCarPhysics defaultParams ⟨true, false, false, false, false⟩)^[n] car0).speed
        = ((vseq n : ℚ) : ℝ) := fun n => (c7_run n).2.2.2
  have hub : ∀ n : ℕ, ((vseq n : ℚ) : ℝ) ≤ 0.228 := by
    intro n
    rw [show (0.228 : ℝ) = ((57 / 250 : ℚ) : ℝ) by norm_num]
    exact_mod_cast vseq_le n
  refine ⟨fun n => ⟨hmain n, by rw [hmain n]; exact hub n⟩,
    by norm_num [defaultParams], ?_⟩
  have hgapq : (57 / 250 : ℚ) - vseq 100 ≤ 57 / 25000 := by
    rw [vseq_gap 100]
    nlinarith [pow100_le]
  have h1 : ((vseq 100 : ℚ) : ℝ) ≤ 0.228 := hub 100
  have h2 : (0.228 : ℝ) - ((vseq 100 : ℚ) : ℝ) ≤ 0.00228 := by
    rw [show (0.228 : ℝ) = ((57 / 250 : ℚ) : ℝ) by norm_num,
      show (0.00228 : ℝ) = ((57 / 25000 : ℚ) : ℝ) by norm_num]
    exact_mod_cast hgapq
  rw [hmain 100, abs_le]
  constructor <;> nlinarith
